import Mathlib

/-!
Verification development for the apalis-pubsub adapter.

Shallow embedding of the inbound bridge (the per-message handler spawned in
`PubSubBackend::poll`, src/lib.rs), the outbound sink (`Sink::poll_flush`,
src/sink.rs) and the acknowledgment context (`PubSubContext`, src/utils.rs).
External collaborators (the broker client, the codec, the async runtime) are
modelled at their interface boundary: the codec is a parameter
`decode : List Nat → Except String M`, a poll of the in-flight flush future is
a parameter `pollFut`, and bytes are `List Nat`.
-/

/-- Error taxonomy of the adapter, from `PubSubError` in src/lib.rs.
The boxed codec error and the broker error payloads are modelled as strings. -/
inductive PubSubError where
  | Client (s : String)
  | Codec (s : String)
  | AckFailed (s : String)
  | Subscription (s : String)
deriving DecidableEq, Repr

/-- The pub/sub attribute key under which a producer may put a task id,
`PUBSUB_ATTRIBUTE_TASK_ID` in src/lib.rs. -/
def pubsubAttributeTaskId : String := "task_id"

/-- First-match lookup in an attribute list, modelling
`message.message.attributes.get(key)` (the attribute map has unique keys). -/
def lookupAttr : List (String × String) → String → Option String
  | [], _ => none
  | (k, v) :: rest, key => if k = key then some v else lookupAttr rest key

/-- Value of one hexadecimal digit, used by the uuid text parser. -/
def hexVal (c : Char) : Option Nat :=
  if '0' ≤ c ∧ c ≤ '9' then some (c.toNat - '0'.toNat)
  else if 'a' ≤ c ∧ c ≤ 'f' then some (c.toNat - 'a'.toNat + 10)
  else if 'A' ≤ c ∧ c ≤ 'F' then some (c.toNat - 'A'.toNat + 10)
  else none

/-- Parser for the hyphenated textual form of a uuid (8-4-4-4-12 hex digits,
hyphens at positions 8, 13, 18 and 23), accumulating the 128-bit value as a
natural number.  Models the external `Uuid::from_str` at its interface
boundary: a string either denotes an identifier or fails to parse. -/
def parseUuidChars : List Char → Nat → Nat → Option Nat
  | [], i, acc => if i = 36 then some acc else none
  | c :: rest, i, acc =>
    if 36 ≤ i then none
    else if i = 8 ∨ i = 13 ∨ i = 18 ∨ i = 23 then
      if c = '-' then parseUuidChars rest (i + 1) acc else none
    else
      match hexVal c with
      | some v => parseUuidChars rest (i + 1) (acc * 16 + v)
      | none => none

/-- `Uuid::from_str` on the hyphenated form, as used at src/lib.rs:328. -/
def uuidFromStr (s : String) : Option Nat :=
  parseUuidChars s.data 0 0

/-- A message delivered by the broker subscription: payload bytes, attribute
map and acknowledgment id, the three pieces of `ReceivedMessage` the handler
in `PubSubBackend::poll` reads. -/
structure ReceivedMessage where
  data : List Nat
  attributes : List (String × String)
  ackId : String
deriving DecidableEq, Repr

/-- The task handed to the worker channel, `Task<M, PubSubContext, Uuid>` as
built by the handler: decoded args, the acknowledgment id captured in the
context, and the task id. -/
structure InTask (M : Type) where
  args : M
  ackId : String
  taskId : Nat
deriving DecidableEq, Repr

/-- Observable actions of the per-message handler, in program order:
issuing the broker `ack` call, a successful channel send carrying a task,
or a failed channel send. -/
inductive HandlerEvent (M : Type) where
  | ackCall
  | sendOk (t : InTask M)
  | sendFail
deriving DecidableEq, Repr

/-- Task id carried by the broker attribute, when present and parseable:
`attributes.get(PUBSUB_ATTRIBUTE_TASK_ID).map(|s| Uuid::from_str(s).ok()).flatten()`
from src/lib.rs:323-334.  A set but unparseable attribute yields `none`. -/
def extractTaskId (attrs : List (String × String)) : Option Nat :=
  (lookupAttr attrs pubsubAttributeTaskId).bind uuidFromStr

/-- The per-message handler of the inbound bridge, src/lib.rs:320-392, as the
ordered list of its observable actions.  `decode` is the pluggable codec,
`maxSize` is `config.max_message_size`, `freshId` is the id the external task
builder would mint when no attribute id is present, and `channelOpen` says
whether `tx.send` succeeds (the consumer side still exists).
Control flow from the source: oversized messages are acked and dropped;
decode failures are acked and dropped; on decode success the task is sent,
and the ack call is issued only in the send-success arm. -/
def handleMessage {M : Type} (decode : List Nat → Except String M)
    (maxSize : Nat) (freshId : Nat) (channelOpen : Bool)
    (msg : ReceivedMessage) : List (HandlerEvent M) :=
  if msg.data.length > maxSize then
    [.ackCall]
  else
    match decode msg.data with
    | .error _ => [.ackCall]
    | .ok m =>
      let task : InTask M :=
        ⟨m, msg.ackId, (extractTaskId msg.attributes).getD freshId⟩
      if channelOpen then [.sendOk task, .ackCall] else [.sendFail]

/-- Claim C2: a message whose payload length strictly exceeds
`max_message_size` is acknowledged and nothing is sent into the channel, so
it never appears in the inbound sequence. -/
theorem claim_c2_oversized_acked_not_sent {M : Type}
    (decode : List Nat → Except String M) (maxSize freshId : Nat)
    (channelOpen : Bool) (msg : ReceivedMessage)
    (hsize : msg.data.length > maxSize) :
    handleMessage decode maxSize freshId channelOpen msg = [.ackCall] ∧
      ∀ t : InTask M,
        HandlerEvent.sendOk t ∉ handleMessage decode maxSize freshId channelOpen msg := by
  have h : handleMessage decode maxSize freshId channelOpen msg = [.ackCall] := by
    unfold handleMessage
    simp [hsize]
  refine ⟨h, ?_⟩
  intro t hmem
  rw [h] at hmem
  simp at hmem

/-- Witness for C2: a 3-byte payload against a limit of 2 is acked and never
sent, at a concrete decoder that would have decoded it. -/
theorem claim_c2_witness :
    handleMessage (fun bs => (.ok bs : Except String (List Nat))) 2 7 true
        ⟨[1, 2, 3], [], "a1"⟩ = [.ackCall] ∧
      ∀ t : InTask (List Nat),
        HandlerEvent.sendOk t ∉
          handleMessage (fun bs => (.ok bs : Except String (List Nat))) 2 7 true
            ⟨[1, 2, 3], [], "a1"⟩ :=
  claim_c2_oversized_acked_not_sent _ 2 7 true ⟨[1, 2, 3], [], "a1"⟩ (by decide)

/-- Claim C3: a message within the size limit whose payload fails decode is
acknowledged and nothing is sent into the channel (poison-message
property). -/
theorem claim_c3_poison_acked_not_sent {M : Type}
    (decode : List Nat → Except String M) (maxSize freshId : Nat)
    (channelOpen : Bool) (msg : ReceivedMessage) (e : String)
    (hsize : ¬ msg.data.length > maxSize)
    (hdec : decode msg.data = .error e) :
    handleMessage decode maxSize freshId channelOpen msg = [.ackCall] ∧
      ∀ t : InTask M,
        HandlerEvent.sendOk t ∉ handleMessage decode maxSize freshId channelOpen msg := by
  have h : handleMessage decode maxSize freshId channelOpen msg = [.ackCall] := by
    unfold handleMessage
    simp [hsize, hdec]
  refine ⟨h, ?_⟩
  intro t hmem
  rw [h] at hmem
  simp at hmem

/-- Witness for C3: a decoder that rejects every payload leads to ack and no
send on a small in-size message. -/
theorem claim_c3_witness :
    handleMessage (fun _ => (.error "bad" : Except String Nat)) 10 7 true
        ⟨[5], [], "a1"⟩ = [.ackCall] ∧
      ∀ t : InTask Nat,
        HandlerEvent.sendOk t ∉
          handleMessage (fun _ => (.error "bad" : Except String Nat)) 10 7 true
            ⟨[5], [], "a1"⟩ :=
  claim_c3_poison_acked_not_sent _ 10 7 true ⟨[5], [], "a1"⟩ "bad" (by decide) rfl

/-- Claim C1: for a message that decodes successfully, the ack call is issued
only after the successful channel send (the trace with an open channel is
exactly send-then-ack), and if the channel send fails the message is never
acknowledged. -/
theorem claim_c1_ack_only_after_send {M : Type}
    (decode : List Nat → Except String M) (maxSize freshId : Nat)
    (msg : ReceivedMessage) (m : M)
    (hsize : ¬ msg.data.length > maxSize)
    (hdec : decode msg.data = .ok m) :
    handleMessage decode maxSize freshId true msg =
        [.sendOk ⟨m, msg.ackId, (extractTaskId msg.attributes).getD freshId⟩,
          .ackCall] ∧
      handleMessage decode maxSize freshId false msg = [.sendFail] ∧
      HandlerEvent.ackCall ∉ handleMessage decode maxSize freshId false msg := by
  have hopen : handleMessage decode maxSize freshId true msg =
      [.sendOk ⟨m, msg.ackId, (extractTaskId msg.attributes).getD freshId⟩,
        .ackCall] := by
    unfold handleMessage
    simp [hsize, hdec]
  have hclosed : handleMessage decode maxSize freshId false msg = [.sendFail] := by
    unfold handleMessage
    simp [hsize, hdec]
  refine ⟨hopen, hclosed, ?_⟩
  rw [hclosed]
  simp

/-- Witness for C1: a concrete one-byte message under an identity-length
decoder; with the channel open the trace is send-then-ack, with the channel
closed there is no ack. -/
theorem claim_c1_witness :
    handleMessage (fun bs => (.ok bs.length : Except String Nat)) 10 3 true
        ⟨[7], [], "a1"⟩ = [.sendOk ⟨1, "a1", 3⟩, .ackCall] ∧
      handleMessage (fun bs => (.ok bs.length : Except String Nat)) 10 3 false
        ⟨[7], [], "a1"⟩ = [.sendFail] ∧
      HandlerEvent.ackCall ∉
        handleMessage (fun bs => (.ok bs.length : Except String Nat)) 10 3 false
          ⟨[7], [], "a1"⟩ :=
  claim_c1_ack_only_after_send _ 10 3 ⟨[7], [], "a1"⟩ 1 (by decide) rfl

/-- The values a message handler run pushes into the bounded channel: each
successful send carries `Ok(Some(task))`, src/lib.rs:379; acks and failed
sends push nothing. -/
def messageSends {M : Type} (events : List (HandlerEvent M)) :
    List (Except PubSubError (Option (InTask M))) :=
  events.filterMap fun e =>
    match e with
    | .sendOk t => some (.ok (some t))
    | _ => none

/-- What the receive loop pushes after `subscription.receive` returns,
src/lib.rs:399-405: on error termination one `Err(Subscription _)` value
(entering the channel only if it is still open), on clean termination
nothing. -/
def receiveLoopFinal {M : Type} (channelOpen : Bool)
    (result : Except String Unit) :
    List (Except PubSubError (Option (InTask M))) :=
  match result with
  | .ok _ => []
  | .error e => if channelOpen then [.error (.Subscription e)] else []

/-- Whether a channel element is an error element. -/
def isErrorElem {M : Type} (x : Except PubSubError (Option (InTask M))) : Bool :=
  match x with
  | .error _ => true
  | .ok _ => false

/-- The full content of the inbound channel over one run of the bridge: the
sends of every handled message (each with its minted fresh id and the
open/closed state of the channel at its send), followed by what the receive
loop pushes on termination. -/
def channelElems {M : Type} (decode : List Nat → Except String M)
    (maxSize : Nat) (inputs : List (ReceivedMessage × Nat × Bool))
    (finalOpen : Bool) (result : Except String Unit) :
    List (Except PubSubError (Option (InTask M))) :=
  (inputs.flatMap fun i =>
      messageSends (handleMessage decode maxSize i.2.1 i.2.2 i.1)) ++
    receiveLoopFinal finalOpen result

/-- Message handler sends are never error elements. -/
theorem messageSends_no_error {M : Type} (events : List (HandlerEvent M)) :
    (messageSends events).countP isErrorElem = 0 := by
  induction events with
  | nil => rfl
  | cons e rest ih =>
    cases e <;> simp [messageSends, List.filterMap_cons, isErrorElem] at * <;>
      simpa [messageSends] using ih

/-- The per-message part of a run contains no error elements. -/
theorem channel_run_sends_no_error {M : Type}
    (decode : List Nat → Except String M) (maxSize : Nat)
    (inputs : List (ReceivedMessage × Nat × Bool)) :
    (inputs.flatMap fun i =>
        messageSends (handleMessage decode maxSize i.2.1 i.2.2 i.1)).countP
      isErrorElem = 0 := by
  induction inputs with
  | nil => rfl
  | cons i rest ih =>
    rw [List.flatMap_cons, List.countP_append, ih, messageSends_no_error]

/-- Claim C6: when the receive loop terminates with an error and the channel
is still open, the channel content is the clean run followed by exactly one
error element, a `Subscription` error wrapping the broker error, as its final
element; the whole run contains exactly one error element.  On non-error
termination the run contains no error element. -/
theorem claim_c6_single_final_subscription_error {M : Type}
    (decode : List Nat → Except String M) (maxSize : Nat)
    (inputs : List (ReceivedMessage × Nat × Bool)) (e : String) :
    channelElems decode maxSize inputs true (.error e) =
        channelElems decode maxSize inputs true (.ok ()) ++
          [.error (.Subscription e)] ∧
      (channelElems decode maxSize inputs true (.error e)).getLast? =
        some (.error (.Subscription e)) ∧
      (channelElems decode maxSize inputs true (.error e)).countP isErrorElem
        = 1 ∧
      (channelElems decode maxSize inputs true (.ok ())).countP isErrorElem
        = 0 := by
  have hclean : (channelElems decode maxSize inputs true
      ((.ok () : Except String Unit))).countP isErrorElem = 0 := by
    unfold channelElems receiveLoopFinal
    rw [List.append_nil]
    exact channel_run_sends_no_error decode maxSize inputs
  have heq : channelElems decode maxSize inputs true (.error e) =
      channelElems decode maxSize inputs true (.ok ()) ++
        [.error (.Subscription e)] := by
    unfold channelElems receiveLoopFinal
    simp
  refine ⟨heq, ?_, ?_, hclean⟩
  · rw [heq, List.getLast?_concat]
  · rw [heq, List.countP_append, hclean]
    rfl

/-- A task in the outbound sink buffer, `PubSubTask<PubSubCompact>`: its args
are already codec-encoded bytes. -/
abbrev CompactTask := InTask (List Nat)

/-- The broker message the sink publishes, the two fields of `PubsubMessage`
the sink's construction touches: payload bytes and the attribute map. -/
structure PubsubMessage where
  data : List Nat
  attributes : List (String × String)
deriving DecidableEq, Repr

/-- The message built for one task in the flush future, src/sink.rs:87-90:
`PubsubMessage { data: task.args, ..Default::default() }` — the default
leaves the attribute map empty. -/
def mkPubsubMessage (t : CompactTask) : PubsubMessage :=
  ⟨t.args, []⟩

/-- All messages published by the flush future built over one taken batch,
src/sink.rs:81-100: one message per task, fanned out by `try_join_all`. -/
def flushMessages (batch : List CompactTask) : List PubsubMessage :=
  batch.map mkPubsubMessage

/-- Outcome of polling a future once. -/
inductive PollRes (α : Type) where
  | Ready (a : α)
  | Pending
deriving DecidableEq, Repr

/-- The sink state `poll_flush` manipulates, from `PubSubSink` in
src/sink.rs: the accumulation buffer and the optional in-progress flush,
the latter modelled by the batch of tasks it owns. -/
structure SinkState where
  buffer : List CompactTask
  flushFuture : Option (List CompactTask)
deriving DecidableEq, Repr

/-- One call of `Sink::poll_flush`, src/sink.rs:66-135.  `pollFut` is the
runtime's answer to polling the in-flight flush future over a given batch.
Returns `none` exactly when control would reach the `unreachable!()` arm.
Control flow from the source: an early return when no flush runs and the
buffer is empty; otherwise, when no flush runs and the buffer is non-empty,
`mem::take` the buffer into a new flush future; then poll whatever future is
in the slot, clearing the slot on either `Ready` outcome. -/
def pollFlush (pollFut : List CompactTask → PollRes (Except PubSubError Unit))
    (s : SinkState) :
    Option (PollRes (Except PubSubError Unit) × SinkState) :=
  if s.flushFuture.isNone ∧ s.buffer.isEmpty then
    some (.Ready (.ok ()), s)
  else
    let s1 : SinkState :=
      if s.flushFuture.isNone ∧ ¬ s.buffer.isEmpty then
        { buffer := [], flushFuture := some s.buffer }
      else s
    match s1.flushFuture with
    | some batch =>
      match pollFut batch with
      | .Ready (.ok ()) => some (.Ready (.ok ()), { s1 with flushFuture := none })
      | .Ready (.error e) => some (.Ready (.error e), { s1 with flushFuture := none })
      | .Pending => some (.Pending, s1)
    | none => none

/-- A concrete outbound task used by the sink witnesses. -/
def sampleTask : CompactTask := ⟨[1, 2, 3], "a1", 0⟩

/-- A second concrete outbound task used by the sink witnesses. -/
def sampleTask2 : CompactTask := ⟨[4, 5], "a2", 1⟩

/-- Counterexample to C10-free reading of claim C4: with no flush in
progress and a non-empty buffer, `poll_flush` does not report `Pending` when
the freshly built flush future completes on its first poll — it returns that
result immediately, with the slot already cleared. -/
theorem claim_c4_counterexample :
    pollFlush (fun _ => .Ready (.ok ())) ⟨[sampleTask], none⟩ =
      some (.Ready (.ok ()), ⟨[], none⟩) := by
  rfl

/-- Claim C4 (amended): if no flush is in progress and the buffer is empty,
`poll_flush` returns `Ready(Ok)` and leaves the state unchanged; if no flush
is in progress and the buffer is non-empty, it atomically takes the entire
buffer (leaving it empty), builds one flush future over every taken item and
polls it once — reporting `Pending` with the future installed when that
first poll is pending, and otherwise returning the future's immediate result
with the flush slot cleared. -/
theorem claim_c4_flush_start (pollFut : List CompactTask → PollRes (Except PubSubError Unit))
    (s : SinkState) (hfut : s.flushFuture = none) :
    (s.buffer = [] → pollFlush pollFut s = some (.Ready (.ok ()), s)) ∧
      (s.buffer ≠ [] →
        pollFlush pollFut s =
          some (match pollFut s.buffer with
            | .Pending => (.Pending, ⟨[], some s.buffer⟩)
            | .Ready r => (.Ready r, ⟨[], none⟩))) := by
  constructor
  · intro hbuf
    unfold pollFlush
    simp [hfut, hbuf]
  · intro hbuf
    unfold pollFlush
    simp only [hfut, Option.isNone_none, List.isEmpty_eq_true, hbuf, and_false,
      if_false, true_and, if_true, List.isEmpty_iff, not_false_iff, and_true]
    cases hp : pollFut s.buffer with
    | Ready r =>
      cases r with
      | ok u => cases u; simp
      | error e => simp
    | Pending => simp

/-- Witness for C4 (amended): starting a flush over a one-task buffer whose
future is still pending reports `Pending`, empties the buffer and installs
the batch in the flush slot; an empty idle sink reports `Ready(Ok)`. -/
theorem claim_c4_witness :
    pollFlush (fun _ => .Pending) ⟨[sampleTask], none⟩ =
        some (.Pending, ⟨[], some [sampleTask]⟩) ∧
      pollFlush (fun _ => .Pending) ⟨[], none⟩ =
        some (.Ready (.ok ()), ⟨[], none⟩) :=
  ⟨(claim_c4_flush_start (fun _ => .Pending) ⟨[sampleTask], none⟩ rfl).2
      (by simp),
    (claim_c4_flush_start (fun _ => .Pending) ⟨[], none⟩ rfl).1 rfl⟩

/-- Claim C5: whenever the flush future polls to an error — whether the
flush was already in progress or was started by this very call — the flush
slot is cleared, the error is returned, and the items of the failed batch
are not re-added to the buffer (the buffer keeps only what accumulated since
the flush started). -/
theorem claim_c5_flush_error_clears_slot
    (pollFut : List CompactTask → PollRes (Except PubSubError Unit))
    (s : SinkState) (batch : List CompactTask) (e : PubSubError) :
    (s.flushFuture = some batch → pollFut batch = .Ready (.error e) →
        pollFlush pollFut s = some (.Ready (.error e), ⟨s.buffer, none⟩)) ∧
      (s.flushFuture = none → s.buffer = batch → batch ≠ [] →
        pollFut batch = .Ready (.error e) →
        pollFlush pollFut s = some (.Ready (.error e), ⟨[], none⟩)) := by
  constructor
  · intro hfut hp
    unfold pollFlush
    simp [hfut, hp]
  · intro hfut hbuf hne hp
    unfold pollFlush
    simp [hfut, hbuf, hne, hp, List.isEmpty_iff]

/-- Witness for C5: a sink with a three-task flush in progress whose batch
fails leaves no flush in progress, returns the error and does not requeue
the batch (the buffer, holding one item accumulated since, is untouched). -/
theorem claim_c5_witness :
    pollFlush (fun _ => .Ready (.error (.Client "boom")))
        ⟨[sampleTask2], some [sampleTask, sampleTask, sampleTask]⟩ =
      some (.Ready (.error (.Client "boom")), ⟨[sampleTask2], none⟩) :=
  (claim_c5_flush_error_clears_slot _ _ [sampleTask, sampleTask, sampleTask]
      (.Client "boom")).1 rfl rfl

/-- Claim C10: the `unreachable!()` arm of `poll_flush` is never executed:
for every runtime behavior of the flush future and every sink state, the
call produces a result (after the two guard branches the flush slot is
always occupied when it is polled). -/
theorem claim_c10_unreachable_never_hit
    (pollFut : List CompactTask → PollRes (Except PubSubError Unit))
    (s : SinkState) :
    (pollFlush pollFut s).isSome = true := by
  rcases s with ⟨buf, fut⟩
  cases fut with
  | some batch =>
    unfold pollFlush
    cases hp : pollFut batch with
    | Ready r => cases r with
      | ok u => cases u; simp [hp]
      | error e => simp [hp]
    | Pending => simp [hp]
  | none =>
    cases buf with
    | nil => unfold pollFlush; simp
    | cons t rest =>
      unfold pollFlush
      cases hp : pollFut (t :: rest) with
      | Ready r => cases r with
        | ok u => cases u; simp [hp]
        | error e => simp [hp]
      | Pending => simp [hp]

/-- Claim C9: every message published by a flush carries exactly the args of
one task of the batch and the default (empty) attribute map; in particular
the task-id correlation attribute is absent, so the inbound bridge's id
extraction yields nothing on such a message and can never reuse a producer
id for messages published through this sink. -/
theorem claim_c9_sink_publishes_no_task_id (batch : List CompactTask)
    (m : PubsubMessage) (hm : m ∈ flushMessages batch) :
    (∃ t, t ∈ batch ∧ m = ⟨t.args, []⟩) ∧
      m.attributes = [] ∧
      extractTaskId m.attributes = none := by
  unfold flushMessages at hm
  rcases List.mem_map.mp hm with ⟨t, ht, rfl⟩
  refine ⟨⟨t, ht, rfl⟩, rfl, rfl⟩

/-- Witness for C9: the message published for a concrete task has its args
as payload, no attributes, and no extractable task id. -/
theorem claim_c9_witness :
    (∃ t, t ∈ [sampleTask] ∧ mkPubsubMessage sampleTask = ⟨t.args, []⟩) ∧
      (mkPubsubMessage sampleTask).attributes = [] ∧
      extractTaskId (mkPubsubMessage sampleTask).attributes = none :=
  claim_c9_sink_publishes_no_task_id [sampleTask] (mkPubsubMessage sampleTask)
    (by simp [flushMessages])

/-- Modelled from the spec: the fresh task id minted when no attribute id is
present comes from the external task builder (`TaskBuilder::build` of
apalis-core, not part of this repository); the spec describes it as a
process-wide monotonically increasing counter.  `mint c` returns the minted
id and the next counter state. -/
def mint (c : Nat) : Nat × Nat :=
  (c, c + 1)

/-- Counterexample to claim C7 as stated: the producer set the `task_id`
attribute (to "zz"), the message is in-size and decodes, yet the resulting
task's id is the freshly minted counter value 5 — the id is not derived from
the broker-supplied attribute, because the attribute fails uuid parsing and
the parse error is silently discarded (src/lib.rs:328-334). -/
theorem claim_c7_counterexample :
    lookupAttr [(pubsubAttributeTaskId, "zz")] pubsubAttributeTaskId =
        some "zz" ∧
      uuidFromStr "zz" = none ∧
      handleMessage (fun bs => (.ok bs : Except String (List Nat))) 10
          (mint 5).1 true ⟨[1], [(pubsubAttributeTaskId, "zz")], "a1"⟩ =
        [.sendOk ⟨[1], "a1", 5⟩, .ackCall] :=
  ⟨rfl, rfl, rfl⟩

/-- Claim C7 (amended): for a message that decodes successfully, the task's
id is derived from the broker-supplied `task_id` attribute when the producer
set one that parses as a valid uuid; otherwise (attribute absent or
unparseable) it is freshly minted by the monotonically increasing counter,
whose mints are injective — distinct counter states yield distinct ids, so
fresh ids are unique within the process lifetime — and whose state strictly
increases at every mint. -/
theorem claim_c7_task_id_assignment {M : Type}
    (decode : List Nat → Except String M) (maxSize c : Nat)
    (msg : ReceivedMessage) (m : M)
    (hsize : ¬ msg.data.length > maxSize)
    (hdec : decode msg.data = .ok m) :
    (∀ u, extractTaskId msg.attributes = some u →
        handleMessage decode maxSize (mint c).1 true msg =
          [.sendOk ⟨m, msg.ackId, u⟩, .ackCall]) ∧
      (extractTaskId msg.attributes = none →
        handleMessage decode maxSize (mint c).1 true msg =
          [.sendOk ⟨m, msg.ackId, c⟩, .ackCall]) ∧
      (∀ c1 c2 : Nat, c1 ≠ c2 → (mint c1).1 ≠ (mint c2).1) ∧
      c < (mint c).2 := by
  refine ⟨?_, ?_, ?_, Nat.lt_succ_self c⟩
  · intro u hu
    unfold handleMessage
    simp [hsize, hdec, hu]
  · intro hnone
    unfold handleMessage
    simp [hsize, hdec, hnone, mint]
  · intro c1 c2 hne
    simpa [mint] using hne

/-- Witness for C7 (amended): a message carrying a parseable uuid attribute
keeps the producer id 1; a message without the attribute gets the minted
id 5; mints at distinct counter states differ; the counter increases. -/
theorem claim_c7_witness :
    handleMessage (fun bs => (.ok bs.length : Except String Nat)) 10
        (mint 5).1 true
        ⟨[7], [(pubsubAttributeTaskId, "00000000-0000-0000-0000-000000000001")],
          "a1"⟩ =
        [.sendOk ⟨1, "a1", 1⟩, .ackCall] ∧
      handleMessage (fun bs => (.ok bs.length : Except String Nat)) 10
          (mint 5).1 true ⟨[7], [], "a2"⟩ =
        [.sendOk ⟨1, "a2", 5⟩, .ackCall] ∧
      (mint 3).1 ≠ (mint 4).1 ∧
      5 < (mint 5).2 :=
  ⟨(claim_c7_task_id_assignment _ 10 5
        ⟨[7], [(pubsubAttributeTaskId, "00000000-0000-0000-0000-000000000001")],
          "a1"⟩ 1 (by decide) rfl).1 1 rfl,
    (claim_c7_task_id_assignment (fun bs => (.ok bs.length : Except String Nat))
        10 5 ⟨[7], [], "a2"⟩ 1 (by decide) rfl).2.1 rfl,
    (claim_c7_task_id_assignment (fun bs => (.ok bs.length : Except String Nat))
        10 5 ⟨[7], [], "a2"⟩ 1 (by decide) rfl).2.2.1 3 4 (by decide),
    (claim_c7_task_id_assignment (fun bs => (.ok bs.length : Except String Nat))
        10 5 ⟨[7], [], "a2"⟩ 1 (by decide) rfl).2.2.2⟩

/-- The acknowledgment context from src/utils.rs: the acknowledgment id and
the two closed-over broker operations.  The async closures are modelled as
functions returning the broker call's result. -/
structure PubSubContext where
  ack_id : String
  ack_fn : Unit → Except String Unit
  nack_fn : Unit → Except String Unit

/-- `PubSubContext::ack`, src/utils.rs:71-75: invoke the closed-over ack
operation and map its error into `AckFailed`. -/
def PubSubContext.ack (c : PubSubContext) : Except PubSubError Unit :=
  (c.ack_fn ()).mapError PubSubError.AckFailed

/-- `PubSubContext::nack`, src/utils.rs:78-82: invoke the closed-over nack
operation and map its error into `AckFailed`. -/
def PubSubContext.nack (c : PubSubContext) : Except PubSubError Unit :=
  (c.nack_fn ()).mapError PubSubError.AckFailed

/-- Claim C8: `ack` and `nack` each invoke only the corresponding
closed-over function; they return `Ok(())` exactly when that function does;
any error it returns is mapped into the `AckFailed` variant, and every error
they produce is an `AckFailed` wrapping that function's error.  Both are
pure functions of the context — no context state is mutated, so repeated
calls behave identically. -/
theorem claim_c8_ctx_ack_nack (c : PubSubContext) :
    ((c.ack = .ok ()) ↔ (c.ack_fn () = .ok ())) ∧
      (∀ e, c.ack_fn () = .error e → c.ack = .error (.AckFailed e)) ∧
      (∀ r, c.ack = .error r → ∃ s, r = .AckFailed s ∧ c.ack_fn () = .error s) ∧
      ((c.nack = .ok ()) ↔ (c.nack_fn () = .ok ())) ∧
      (∀ e, c.nack_fn () = .error e → c.nack = .error (.AckFailed e)) ∧
      (∀ r, c.nack = .error r → ∃ s, r = .AckFailed s ∧ c.nack_fn () = .error s) := by
  refine ⟨?_, ?_, ?_, ?_, ?_, ?_⟩
  · cases h : c.ack_fn () with
    | ok u => cases u; simp [PubSubContext.ack, h, Except.mapError]
    | error e => simp [PubSubContext.ack, h, Except.mapError]
  · intro e h
    simp [PubSubContext.ack, h, Except.mapError]
  · intro r h
    cases hf : c.ack_fn () with
    | ok u => cases u; simp [PubSubContext.ack, hf, Except.mapError] at h
    | error e =>
      simp [PubSubContext.ack, hf, Except.mapError] at h
      exact ⟨e, h.symm ▸ rfl, rfl⟩
  · cases h : c.nack_fn () with
    | ok u => cases u; simp [PubSubContext.nack, h, Except.mapError]
    | error e => simp [PubSubContext.nack, h, Except.mapError]
  · intro e h
    simp [PubSubContext.nack, h, Except.mapError]
  · intro r h
    cases hf : c.nack_fn () with
    | ok u => cases u; simp [PubSubContext.nack, hf, Except.mapError] at h
    | error e =>
      simp [PubSubContext.nack, hf, Except.mapError] at h
      exact ⟨e, h.symm ▸ rfl, rfl⟩

/-- Witness for C8: a context whose broker operations succeed acks with
`Ok(())`; one whose operations fail with "boom" yields
`Err(AckFailed("boom"))` from both `ack` and `nack`. -/
theorem claim_c8_witness :
    PubSubContext.ack ⟨"i1", fun _ => .ok (), fun _ => .ok ()⟩ = .ok () ∧
      PubSubContext.ack
          ⟨"i2", fun _ => .error "boom", fun _ => .error "boom"⟩ =
        .error (.AckFailed "boom") ∧
      PubSubContext.nack
          ⟨"i2", fun _ => .error "boom", fun _ => .error "boom"⟩ =
        .error (.AckFailed "boom") :=
  ⟨(claim_c8_ctx_ack_nack ⟨"i1", fun _ => .ok (), fun _ => .ok ()⟩).1.mpr rfl,
    (claim_c8_ctx_ack_nack
        ⟨"i2", fun _ => .error "boom", fun _ => .error "boom"⟩).2.1 "boom" rfl,
    (claim_c8_ctx_ack_nack
        ⟨"i2", fun _ => .error "boom", fun _ => .error "boom"⟩).2.2.2.2.1 "boom"
      rfl⟩
